import Mathlib

/-!
Verification of the fitness-bot response-processing and history-reconstruction
pipeline. The Python sources (claude_api.py, google_docs.py, bot.py, config.py)
are shallowly embedded: Python strings become Lean `String` manipulated through
explicit character-list helpers mirroring the Python string methods, remote
calls become `Except`-valued attempt functions, and the retry loops become
recursive functions that also record their call count and backoff sleeps.
-/

set_option maxRecDepth 10000

/-! ## Python string-method models -/

/-- Character-list core of Python `str.strip()`: drop whitespace from both
ends. -/
def stripCore (l : List Char) : List Char :=
  ((l.dropWhile Char.isWhitespace).reverse.dropWhile Char.isWhitespace).reverse

/-- Model of Python `str.strip()`. -/
def pyStrip (s : String) : String :=
  ⟨stripCore s.data⟩

/-- Model of Python `str.lower()`. -/
def pyLower (s : String) : String :=
  ⟨s.data.map Char.toLower⟩

/-- Model of Python `str.startswith(pat)`. -/
def pyStartsWith (s pat : String) : Bool :=
  pat.data.isPrefixOf s.data

/-- Model of Python `str.endswith(pat)`. -/
def pyEndsWith (s pat : String) : Bool :=
  pat.data.isSuffixOf s.data

/-- Boolean contiguous-sublist check. -/
def listInfix (needle : List Char) : List Char → Bool
  | [] => needle.isEmpty
  | c :: cs => needle.isPrefixOf (c :: cs) || listInfix needle cs

/-- Model of Python `needle in hay` substring containment. -/
def pyContains (hay needle : String) : Bool :=
  listInfix needle.data hay.data

/-- Model of Python `s[n:]` on character positions. -/
def strDrop (s : String) (n : Nat) : String :=
  ⟨s.data.drop n⟩

/-- Model of Python `s[:-n]` on character positions. -/
def strDropRight (s : String) (n : Nat) : String :=
  ⟨s.data.take (s.data.length - n)⟩

/-- Replace every occurrence of a nonempty character pattern, scanning left
to right, as Python `str.replace` does. The fuel argument makes the
recursion structural; it is instantiated with the length of the scanned
list, which bounds the number of recursive steps because a match consumes
at least one character. -/
def replaceAllFuel (pat repl : List Char) : Nat → List Char → List Char
  | 0, l => l
  | _ + 1, [] => []
  | f + 1, c :: cs =>
    if pat.isPrefixOf (c :: cs) ∧ pat ≠ [] then
      repl ++ replaceAllFuel pat repl f ((c :: cs).drop pat.length)
    else
      c :: replaceAllFuel pat repl f cs

/-- Model of Python `s.replace(pat, repl)`. -/
def pyReplace (s pat repl : String) : String :=
  ⟨replaceAllFuel pat.data repl.data s.data.length s.data⟩

/-- Auxiliary splitter accumulating the current field in reverse. -/
def splitChAux (sep : Char) : List Char → List Char → List String
  | [], acc => [⟨acc.reverse⟩]
  | c :: cs, acc =>
    if c = sep then ⟨acc.reverse⟩ :: splitChAux sep cs []
    else splitChAux sep cs (c :: acc)

/-- Model of Python `s.split(sep)` for a one-character separator. -/
def pySplitCh (sep : Char) (s : String) : List String :=
  splitChAux sep s.data []

/-- Model of Python `s.split(chr 10)`, the line splitting used by the
document re-parsers. -/
def splitNl (s : String) : List String :=
  pySplitCh '\n' s

/-- Model of Python `", ".join(xs)`. -/
def joinComma : List String → String
  | [] => ""
  | [x] => x
  | x :: y :: xs => x ++ ", " ++ joinComma (y :: xs)

/-! ## Data model -/

/-- A normalized daily check-in record (spec section 3). All four fields are
structurally present; absence is carried by sentinel values. -/
structure DailyRecord where
  date : String
  workout : String
  eating_feelings : String
  short_term_goals : List String
deriving DecidableEq, Repr

/-- A stretch-tracking entry (spec section 3). -/
structure StretchEntry where
  date : String
  stretched : Bool
  raw_text : String
deriving DecidableEq, Repr

/-- Python exceptions as seen by the retry wrappers: an `HttpError` carrying a
status code, or any other exception. -/
inductive PyErr where
  | http (status : Nat)
  | other
deriving DecidableEq, Repr

/-- JSON values as returned by the external `json.loads`. -/
inductive JVal where
  | null
  | boolean (b : Bool)
  | num (n : Int)
  | str (s : String)
  | arr (elems : List JVal)
  | obj (fields : List (String × JVal))

/-- Dictionary lookup on a parsed JSON object. -/
def jGet (j : JVal) (k : String) : Option JVal :=
  match j with
  | .obj kvs => (kvs.find? (fun kv => kv.fst == k)).map (fun kv => kv.snd)
  | _ => none

/-- Whether a parsed JSON object carries the given key. -/
def hasKey (j : JVal) (k : String) : Bool :=
  match j with
  | .obj kvs => kvs.any (fun kv => kv.fst == k)
  | _ => false

/-- Trace of one run of a retry wrapper: the outcome, how many times the
wrapped operation was invoked, and the backoff sleeps performed. -/
structure RetryTrace (ε α : Type) where
  result : Except ε α
  calls : Nat
  sleeps : List ℚ

/-! ## Configuration defaults (config.py) -/

/-- config.py default `MAX_RETRIES`. -/
def MAX_RETRIES : Nat := 3

/-- config.py default `RETRY_DELAY` (seconds). -/
def RETRY_DELAY : ℚ := 1

/-- config.py default `RETRY_BACKOFF`. -/
def RETRY_BACKOFF : ℚ := 2

/-! ## claude_api.py -/

namespace claude_api

/-- claude_api._clean_json_response: strip whitespace, remove a leading
triple-backtick fence (with or without the json tag), remove a trailing
fence, and strip again. -/
def _clean_json_response (response_text : String) : String :=
  let text := pyStrip response_text
  let text :=
    if pyStartsWith text "```json" then strDrop text 7
    else if pyStartsWith text "```" then strDrop text 3
    else text
  let text := if pyEndsWith text "```" then strDropRight text 3 else text
  pyStrip text

/-- Core loop of claude_api._retry_with_backoff. `op i` is the behaviour of
the i-th invocation of the wrapped function; `r` counts the attempts still
allowed after the current one. Every exception is caught and retried; the
last exception is re-raised once attempts run out. -/
def retryGo {ε α : Type} (op : Nat → Except ε α) (base factor : ℚ) (i : Nat) :
    Nat → RetryTrace ε α
  | 0 =>
    match op i with
    | .ok v => ⟨.ok v, 1, []⟩
    | .error e => ⟨.error e, 1, []⟩
  | r + 1 =>
    match op i with
    | .ok v => ⟨.ok v, 1, []⟩
    | .error _ =>
      let t := retryGo op base factor (i + 1) r
      ⟨t.result, t.calls + 1, base * factor ^ i :: t.sleeps⟩

/-- claude_api._retry_with_backoff for `maxRetries` total attempts
(MAX_RETRIES in the source; the source assumes at least one attempt). -/
def _retry_with_backoff {ε α : Type} (op : Nat → Except ε α)
    (base factor : ℚ) (maxRetries : Nat) : RetryTrace ε α :=
  retryGo op base factor 0 (maxRetries - 1)

/-- The fixed fallback record of claude_api.get_daily_summary. -/
def dailyFallback : JVal :=
  .obj [("workout", .str "Unable to process workout information"),
        ("eating_feelings", .str "Unable to process eating information"),
        ("short_term_goals", .arr [])]

/-- claude_api.get_daily_summary. `attempts i` models the i-th call to the
Claude client (either an exception or the raw reply text) and `jsonLoads`
models the external `json.loads` (`none` = JSONDecodeError). The inner
_make_request parses the cleaned reply and converts a decode error into the
fallback record; the outer try/except converts any exhausted-retry exception
into the fallback as well, so the error channel of the result is never used. -/
def makeDailyRequest (jsonLoads : String → Option JVal)
    (attempts : Nat → Except Unit String) (i : Nat) : Except Unit JVal :=
  match attempts i with
  | .error e => .error e
  | .ok t =>
    match jsonLoads (_clean_json_response (pyStrip t)) with
    | some j => .ok j
    | none => .ok dailyFallback

/-- The top level of claude_api.get_daily_summary: retry `_make_request` and
convert any exhausted-retry exception into the fallback record. -/
def get_daily_summary (jsonLoads : String → Option JVal)
    (attempts : Nat → Except Unit String) : Except Unit JVal :=
  match (_retry_with_backoff (makeDailyRequest jsonLoads attempts)
      RETRY_DELAY RETRY_BACKOFF MAX_RETRIES).result with
  | .ok v => .ok v
  | .error _ => .ok dailyFallback

/-- The meaningful-workout test used by the weekly fallback:
`s.get(workout, empty).lower() not in [not specified, none, empty]`. -/
def meaningfulWorkout (s : DailyRecord) : Bool :=
  !(["not specified", "none", ""].contains (pyLower s.workout))

/-- The locally computed fallback record of claude_api.get_weekly_recap. -/
def weeklyFallback (daily_summaries : List DailyRecord) : JVal :=
  .obj [("workout_count", .num ((daily_summaries.filter meaningfulWorkout).length : Int)),
        ("general_eating_feeling", .str "Mixed feelings about eating this week"),
        ("slip_ups", .str "Unable to analyze slip-ups"),
        ("suggested_reflection", .str "Keep up the great work and stay consistent!")]

/-- claude_api.get_weekly_recap, modelled like `get_daily_summary`; both the
JSON-decode-error branch inside _make_request and the outer try/except yield
the locally computed `weeklyFallback`. -/
def makeWeeklyRequest (jsonLoads : String → Option JVal)
    (daily_summaries : List DailyRecord)
    (attempts : Nat → Except Unit String) (i : Nat) : Except Unit JVal :=
  match attempts i with
  | .error e => .error e
  | .ok t =>
    match jsonLoads (_clean_json_response (pyStrip t)) with
    | some j => .ok j
    | none => .ok (weeklyFallback daily_summaries)

/-- The top level of claude_api.get_weekly_recap: retry `_make_request` and
convert any exhausted-retry exception into the locally computed fallback. -/
def get_weekly_recap (jsonLoads : String → Option JVal)
    (daily_summaries : List DailyRecord)
    (attempts : Nat → Except Unit String) : Except Unit JVal :=
  match (_retry_with_backoff (makeWeeklyRequest jsonLoads daily_summaries attempts)
      RETRY_DELAY RETRY_BACKOFF MAX_RETRIES).result with
  | .ok v => .ok v
  | .error _ => .ok (weeklyFallback daily_summaries)

end claude_api

/-! ## google_docs.py: retry wrapper -/

namespace google_docs

/-- The HTTP status codes google_docs._retry_with_backoff treats as
retryable. -/
def retryableStatuses : List Nat := [429, 500, 502, 503, 504]

/-- Core loop of google_docs._retry_with_backoff: an HttpError with a
retryable status and any non-HttpError exception are retried with backoff;
an HttpError with any other status breaks out of the loop and is re-raised
immediately. -/
def retryGo {α : Type} (op : Nat → Except PyErr α) (base factor : ℚ) (i : Nat) :
    Nat → RetryTrace PyErr α
  | 0 =>
    match op i with
    | .ok v => ⟨.ok v, 1, []⟩
    | .error e => ⟨.error e, 1, []⟩
  | r + 1 =>
    match op i with
    | .ok v => ⟨.ok v, 1, []⟩
    | .error (PyErr.http s) =>
      if s ∈ retryableStatuses then
        let t := retryGo op base factor (i + 1) r
        ⟨t.result, t.calls + 1, base * factor ^ i :: t.sleeps⟩
      else ⟨.error (PyErr.http s), 1, []⟩
    | .error PyErr.other =>
      let t := retryGo op base factor (i + 1) r
      ⟨t.result, t.calls + 1, base * factor ^ i :: t.sleeps⟩

/-- google_docs._retry_with_backoff for `maxRetries` total attempts. -/
def _retry_with_backoff {α : Type} (op : Nat → Except PyErr α)
    (base factor : ℚ) (maxRetries : Nat) : RetryTrace PyErr α :=
  retryGo op base factor 0 (maxRetries - 1)

end google_docs

/-! ## google_docs.py: daily re-parser -/

namespace google_docs

/-- The bullet prefixes matched by get_daily_summaries_from_doc. Note that the
source file literally contains the three characters U+00E2 U+20AC U+00A2
(a mojibake rendering of the bullet U+2022) in each prefix. -/
def bWorkout : String := "â€¢ Workout:"

/-- The eating-feelings bullet prefix as written in the source. -/
def bEating : String := "â€¢ Eating Feelings:"

/-- The short-term-goals bullet prefix as written in the source. -/
def bGoals : String := "â€¢ Short-term Goals:"

/-- The daily heading marker matched by the re-parser. -/
def headingTag : String := "Daily Check-in:"

/-- The record created when a daily heading line is found: the date is the
heading with the marker removed and stripped, the other fields start at
their sentinel values. -/
def initDailyRecord (line : String) : DailyRecord :=
  { date := pyStrip (pyReplace line headingTag "")
    workout := "Not specified"
    eating_feelings := "Not specified"
    short_term_goals := [] }

/-- One body line of an entry, already stripped, applied to the record under
construction: the three recognized bullets overwrite their field, using the
list comprehension split-on-comma / strip / drop-empty for the goals; a goals
bullet whose text is empty or the sentinel leaves the field unchanged. -/
def updateSummary (rec : DailyRecord) (line_content : String) : DailyRecord :=
  if pyStartsWith line_content bWorkout then
    { rec with workout := pyStrip (pyReplace line_content bWorkout "") }
  else if pyStartsWith line_content bEating then
    { rec with eating_feelings := pyStrip (pyReplace line_content bEating "") }
  else if pyStartsWith line_content bGoals then
    let goals_text := pyStrip (pyReplace line_content bGoals "")
    if goals_text ≠ "" ∧ goals_text ≠ "Not specified" then
      { rec with short_term_goals :=
          ((pySplitCh ',' goals_text).map pyStrip).filter (fun g => g != "") }
    else rec
  else rec

/-- Scanner state: looking for the next daily heading, or inside an entry
body accumulating the record begun at the last heading. -/
inductive ScanState where
  | seek
  | inEntry (rec : DailyRecord)

/-- The scan loop of get_daily_summaries_from_doc over the document lines.
In seek state, stop when the collected-records budget is exhausted, start an
entry at a heading line and skip anything else; in entry state, emit the
record at a separator line (returning to seek with one fewer record allowed)
or at end of input, and otherwise fold the stripped line into the record. -/
def scanLines : List String → ScanState → Nat → List DailyRecord
  | [], .seek, _ => []
  | [], .inEntry rec, _ => [rec]
  | l :: rest, .seek, days =>
    if days = 0 then []
    else
      let line := pyStrip l
      if pyStartsWith line headingTag then
        scanLines rest (.inEntry (initDailyRecord line)) days
      else scanLines rest .seek days
  | l :: rest, .inEntry rec, days =>
    if pyStartsWith (pyStrip l) "---" then
      rec :: scanLines rest .seek (days - 1)
    else scanLines rest (.inEntry (updateSummary rec (pyStrip l))) days

/-- google_docs.get_daily_summaries_from_doc, applied to the plain text
extracted from the document body (the fetch and paragraph-flattening of the
external document API are abstracted to that text). -/
def get_daily_summaries_from_doc (full_text : String) (days : Nat) :
    List DailyRecord :=
  scanLines (splitNl full_text) .seek days

/-- Modelled from the spec: `get_stretch_entry` is imported by bot.py from
google_docs but is absent from src/google_docs.py. Spec section 4.3: it
scans the entries head to tail for the one whose key matches date_key
exactly and returns the first (most recent) match or signals absence. -/
def get_stretch_entry (entries : List StretchEntry) (date_key : String) :
    Option StretchEntry :=
  entries.find? (fun e => e.date == date_key)

end google_docs

/-! ## bot.py -/

namespace bot

/-- The document content rendered by bot.process_daily_response (the
doc_content f-string, reproduced verbatim including the trailing indentation
of the closing triple quote). The bullets here are the genuine U+2022
character written by bot.py. -/
def daily_doc_content (today_str user_text : String) (summary : DailyRecord) :
    String :=
  "\nDaily Check-in: " ++ today_str ++ "\n\nRaw Response:\n" ++ user_text ++
  "\n\nSummary:\n• Workout: " ++ summary.workout ++
  "\n• Eating Feelings: " ++ summary.eating_feelings ++
  "\n• Short-term Goals: " ++ joinComma summary.short_term_goals ++
  "\n\n---\n            "

/-- The document text after google_docs.append_to_doc inserts a heading and
content block at the head of a document whose previous body text is `rest`:
the three insertText requests place a blank line, the heading line, the
content, and a trailing blank line before the old text. -/
def append_to_doc_text (heading content rest : String) : String :=
  "\n" ++ heading ++ "\n" ++ content ++ "\n" ++ "\n" ++ rest

/-- The stretched determination of bot.process_stretch_response. -/
def stretchedFromText (user_text : String) : Bool :=
  pyContains (pyLower user_text) "yes" || pyContains (pyLower user_text) "yeah" ||
    pyContains (pyLower user_text) "yep"

/-- bot.process_stretch_response: the entry saved to the stretch document,
keyed by the pending date (falling back to the current date) and recording
whether the lower-cased reply contains an affirmative substring. -/
def process_stretch_response (pending_date : Option String) (now_date : String)
    (user_text : String) : StretchEntry :=
  { date := pending_date.getD now_date
    stretched := stretchedFromText user_text
    raw_text := user_text }

end bot

/-! ## Definitions used by the verification -/

/-- Well-formedness of a re-parsed record: the non-goal fields are fixed
points of stripping and every goal is nonempty and stripped. -/
def goodRec (r : DailyRecord) : Prop :=
  pyStrip r.date = r.date ∧ pyStrip r.workout = r.workout ∧
  pyStrip r.eating_feelings = r.eating_feelings ∧
  ∀ g ∈ r.short_term_goals, g ≠ "" ∧ pyStrip g = g

/-- A concrete daily record used to exercise the render/re-parse round
trip. -/
def c1Original : DailyRecord :=
  ⟨"2024-01-01", "5k run", "Felt proud of my eating", ["sleep earlier"]⟩

/-- The document text produced by appending the rendered check-in for
`c1Original` to an empty document, exactly as process_daily_response and
append_to_doc do. -/
def c1DocText : String :=
  bot.append_to_doc_text "Daily Check-in: 2024-01-01"
    (bot.daily_doc_content "2024-01-01" "Ran 5k, felt proud" c1Original) ""

/-! ## Helper lemmas -/

theorem dropWhile_head_false {α : Type} (p : α → Bool) :
    ∀ (l : List α) (a : α) (t : List α), l.dropWhile p = a :: t → p a = false := by
  intro l
  induction l with
  | nil => intro a t h; simp [List.dropWhile] at h
  | cons b bt ih =>
    intro a t h
    by_cases hb : p b
    · rw [List.dropWhile_cons_of_pos hb] at h
      exact ih a t h
    · rw [List.dropWhile_cons_of_neg hb] at h
      cases h
      simpa using hb

theorem dropWhile_of_head_false {α : Type} (p : α → Bool) (a : α) (t : List α)
    (h : p a = false) : (a :: t).dropWhile p = a :: t := by
  rw [List.dropWhile_cons_of_neg]
  simp [h]

theorem dropWhile_dropWhile {α : Type} (p : α → Bool) (l : List α) :
    (l.dropWhile p).dropWhile p = l.dropWhile p := by
  cases h : l.dropWhile p with
  | nil => simp
  | cons a t =>
    exact dropWhile_of_head_false p a t (dropWhile_head_false p l a t h)

theorem dropWhile_stripCore (l : List Char) :
    (stripCore l).dropWhile Char.isWhitespace = stripCore l := by
  unfold stripCore
  cases h : l.dropWhile Char.isWhitespace with
  | nil => simp
  | cons a t =>
    have ha : Char.isWhitespace a = false := dropWhile_head_false _ l a t h
    rw [show (a :: t).reverse = t.reverse ++ [a] by simp]
    rw [List.dropWhile_append]
    by_cases he : (t.reverse.dropWhile Char.isWhitespace).isEmpty
    · simp [he, dropWhile_of_head_false _ _ _ ha]
    · rw [if_neg he]
      rw [List.reverse_append]
      simp only [List.reverse_cons, List.reverse_nil, List.nil_append, List.singleton_append]
      exact dropWhile_of_head_false _ _ _ ha

theorem stripCore_idem (l : List Char) : stripCore (stripCore l) = stripCore l := by
  conv_lhs => rw [stripCore]
  rw [dropWhile_stripCore]
  rw [show (stripCore l).reverse = (l.dropWhile Char.isWhitespace).reverse.dropWhile Char.isWhitespace by simp [stripCore]]
  rw [dropWhile_dropWhile]
  simp [stripCore]

theorem pyStrip_idem (s : String) : pyStrip (pyStrip s) = pyStrip s := by
  unfold pyStrip
  simp [stripCore_idem]

theorem retryGo_ok {ε α : Type} (op : Nat → Except ε α) (base factor : ℚ) :
    ∀ (r i : Nat) (v : α), (claude_api.retryGo op base factor i r).result = .ok v →
      ∃ k, i ≤ k ∧ k ≤ i + r ∧ op k = .ok v := by
  intro r
  induction r with
  | zero =>
    intro i v h
    cases hop : op i with
    | ok w =>
      refine ⟨i, le_refl i, by omega, ?_⟩
      simp [claude_api.retryGo, hop] at h
      rw [hop, h]
    | error e => simp [claude_api.retryGo, hop] at h
  | succ r ih =>
    intro i v h
    cases hop : op i with
    | ok w =>
      refine ⟨i, le_refl i, by omega, ?_⟩
      simp [claude_api.retryGo, hop] at h
      rw [hop, h]
    | error e =>
      simp only [claude_api.retryGo, hop] at h
      obtain ⟨k, hk1, hk2, hk3⟩ := ih (i + 1) v h
      exact ⟨k, by omega, by omega, hk3⟩

theorem scanLines_invariant (Q : DailyRecord → Prop) (lineOk : String → Prop)
    (hInit : ∀ line, Q (google_docs.initDailyRecord line))
    (hUpd : ∀ r lc, lineOk lc → Q r → Q (google_docs.updateSummary r lc)) :
    ∀ (ls : List String), (∀ l ∈ ls, lineOk (pyStrip l)) →
      ∀ (n : Nat),
        (∀ x ∈ google_docs.scanLines ls .seek n, Q x) ∧
        (∀ r, Q r → ∀ x ∈ google_docs.scanLines ls (.inEntry r) n, Q x) := by
  intro ls
  induction ls with
  | nil =>
    intro _ n
    refine ⟨?_, ?_⟩
    · intro x hx
      simp [google_docs.scanLines] at hx
    · intro r hr x hx
      simp [google_docs.scanLines] at hx
      rwa [hx]
  | cons l rest ih =>
    intro hls n
    have hrest : ∀ a ∈ rest, lineOk (pyStrip a) :=
      fun a ha => hls a (List.mem_cons_of_mem l ha)
    have hl : lineOk (pyStrip l) := hls l (List.mem_cons_self l rest)
    refine ⟨?_, ?_⟩
    · intro x hx
      by_cases hn : n = 0
      · simp [google_docs.scanLines, hn] at hx
      · by_cases hh : pyStartsWith (pyStrip l) google_docs.headingTag
        · rw [show google_docs.scanLines (l :: rest) .seek n =
              google_docs.scanLines rest (.inEntry (google_docs.initDailyRecord (pyStrip l))) n by
            simp [google_docs.scanLines, hn, hh]] at hx
          exact (ih hrest n).2 _ (hInit _) x hx
        · rw [show google_docs.scanLines (l :: rest) .seek n =
              google_docs.scanLines rest .seek n by
            simp [google_docs.scanLines, hn, hh]] at hx
          exact (ih hrest n).1 x hx
    · intro r hr x hx
      by_cases hsep : pyStartsWith (pyStrip l) "---"
      · rw [show google_docs.scanLines (l :: rest) (.inEntry r) n =
            r :: google_docs.scanLines rest .seek (n - 1) by
          simp [google_docs.scanLines, hsep]] at hx
        rcases List.mem_cons.mp hx with hx | hx
        · rwa [hx]
        · exact (ih hrest (n - 1)).1 x hx
      · rw [show google_docs.scanLines (l :: rest) (.inEntry r) n =
            google_docs.scanLines rest (.inEntry (google_docs.updateSummary r (pyStrip l))) n by
          simp [google_docs.scanLines, hsep]] at hx
        exact (ih hrest n).2 _ (hUpd r _ hl hr) x hx

theorem scanLines_length :
    ∀ (ls : List String),
      (∀ n, (google_docs.scanLines ls .seek n).length ≤ n) ∧
      (∀ r n, 1 ≤ n → (google_docs.scanLines ls (.inEntry r) n).length ≤ n) := by
  intro ls
  induction ls with
  | nil =>
    refine ⟨?_, ?_⟩
    · intro n; simp [google_docs.scanLines]
    · intro r n hn; simpa [google_docs.scanLines] using hn
  | cons l rest ih =>
    refine ⟨?_, ?_⟩
    · intro n
      by_cases hn : n = 0
      · simp [google_docs.scanLines, hn]
      · by_cases hh : pyStartsWith (pyStrip l) google_docs.headingTag
        · rw [show google_docs.scanLines (l :: rest) .seek n =
              google_docs.scanLines rest (.inEntry (google_docs.initDailyRecord (pyStrip l))) n by
            simp [google_docs.scanLines, hn, hh]]
          exact ih.2 _ n (by omega)
        · rw [show google_docs.scanLines (l :: rest) .seek n =
              google_docs.scanLines rest .seek n by
            simp [google_docs.scanLines, hn, hh]]
          exact ih.1 n
    · intro r n hn
      by_cases hsep : pyStartsWith (pyStrip l) "---"
      · rw [show google_docs.scanLines (l :: rest) (.inEntry r) n =
            r :: google_docs.scanLines rest .seek (n - 1) by
          simp [google_docs.scanLines, hsep]]
        have := ih.1 (n - 1)
        simp only [List.length_cons]
        omega
      · rw [show google_docs.scanLines (l :: rest) (.inEntry r) n =
            google_docs.scanLines rest (.inEntry (google_docs.updateSummary r (pyStrip l))) n by
          simp [google_docs.scanLines, hsep]]
        exact ih.2 _ n hn

theorem consPrefixCons {α : Type} (a : α) {l₁ l₂ : List α} (h : l₁ <+: l₂) :
    a :: l₁ <+: a :: l₂ := by
  obtain ⟨t, ht⟩ := h
  exact ⟨t, by rw [List.cons_append, ht]⟩

theorem scanLines_mono :
    ∀ (ls : List String),
      (∀ n m, n ≤ m →
        google_docs.scanLines ls .seek n <+: google_docs.scanLines ls .seek m) ∧
      (∀ r n m, 1 ≤ n → n ≤ m →
        google_docs.scanLines ls (.inEntry r) n <+: google_docs.scanLines ls (.inEntry r) m) := by
  intro ls
  induction ls with
  | nil =>
    refine ⟨?_, ?_⟩
    · intro n m _
      simp [google_docs.scanLines]
    · intro r n m _ _
      simp [google_docs.scanLines]
  | cons l rest ih =>
    refine ⟨?_, ?_⟩
    · intro n m hnm
      by_cases hn : n = 0
      · rw [show google_docs.scanLines (l :: rest) .seek n = [] by
          simp [google_docs.scanLines, hn]]
        exact ⟨_, rfl⟩
      · have hm : ¬ m = 0 := by omega
        by_cases hh : pyStartsWith (pyStrip l) google_docs.headingTag
        · rw [show google_docs.scanLines (l :: rest) .seek n =
              google_docs.scanLines rest (.inEntry (google_docs.initDailyRecord (pyStrip l))) n by
            simp [google_docs.scanLines, hn, hh]]
          rw [show google_docs.scanLines (l :: rest) .seek m =
              google_docs.scanLines rest (.inEntry (google_docs.initDailyRecord (pyStrip l))) m by
            simp [google_docs.scanLines, hm, hh]]
          exact ih.2 _ n m (by omega) hnm
        · rw [show google_docs.scanLines (l :: rest) .seek n =
              google_docs.scanLines rest .seek n by
            simp [google_docs.scanLines, hn, hh]]
          rw [show google_docs.scanLines (l :: rest) .seek m =
              google_docs.scanLines rest .seek m by
            simp [google_docs.scanLines, hm, hh]]
          exact ih.1 n m hnm
    · intro r n m hn hnm
      by_cases hsep : pyStartsWith (pyStrip l) "---"
      · rw [show google_docs.scanLines (l :: rest) (.inEntry r) n =
            r :: google_docs.scanLines rest .seek (n - 1) by
          simp [google_docs.scanLines, hsep]]
        rw [show google_docs.scanLines (l :: rest) (.inEntry r) m =
            r :: google_docs.scanLines rest .seek (m - 1) by
          simp [google_docs.scanLines, hsep]]
        exact consPrefixCons r (ih.1 (n - 1) (m - 1) (by omega))
      · rw [show google_docs.scanLines (l :: rest) (.inEntry r) n =
            google_docs.scanLines rest (.inEntry (google_docs.updateSummary r (pyStrip l))) n by
          simp [google_docs.scanLines, hsep]]
        rw [show google_docs.scanLines (l :: rest) (.inEntry r) m =
            google_docs.scanLines rest (.inEntry (google_docs.updateSummary r (pyStrip l))) m by
          simp [google_docs.scanLines, hsep]]
        exact ih.2 _ n m hn hnm

theorem goodRec_init (line : String) : goodRec (google_docs.initDailyRecord line) := by
  unfold goodRec google_docs.initDailyRecord
  dsimp only
  refine ⟨pyStrip_idem _, by decide, by decide, ?_⟩
  intro g hg
  simp at hg

theorem goodRec_update (r : DailyRecord) (lc : String) (h : goodRec r) :
    goodRec (google_docs.updateSummary r lc) := by
  unfold google_docs.updateSummary
  dsimp only
  split_ifs with h1 h2 h3 h4
  · exact ⟨h.1, pyStrip_idem _, h.2.2.1, h.2.2.2⟩
  · exact ⟨h.1, h.2.1, pyStrip_idem _, h.2.2.2⟩
  · refine ⟨h.1, h.2.1, h.2.2.1, ?_⟩
    intro g hg
    simp only [List.mem_filter, List.mem_map] at hg
    obtain ⟨⟨orig, _, horig⟩, hne⟩ := hg
    refine ⟨by simpa using hne, ?_⟩
    rw [← horig, pyStrip_idem]
  · exact h
  · exact h

theorem updateSummary_workout_of_not (r : DailyRecord) (lc : String)
    (h : pyStartsWith lc google_docs.bWorkout = false) :
    (google_docs.updateSummary r lc).workout = r.workout := by
  unfold google_docs.updateSummary
  dsimp only
  split_ifs with h1 h2 h3 h4 <;> first
    | rfl
    | exact absurd h1 (by simp [h])

theorem updateSummary_eating_of_not (r : DailyRecord) (lc : String)
    (h : pyStartsWith lc google_docs.bEating = false) :
    (google_docs.updateSummary r lc).eating_feelings = r.eating_feelings := by
  unfold google_docs.updateSummary
  dsimp only
  split_ifs with h1 h2 h3 h4 <;> first
    | rfl
    | exact absurd h2 (by simp [h])

theorem updateSummary_goals_of_not (r : DailyRecord) (lc : String)
    (h : pyStartsWith lc google_docs.bGoals = false) :
    (google_docs.updateSummary r lc).short_term_goals = r.short_term_goals := by
  unfold google_docs.updateSummary
  dsimp only
  split_ifs with h1 h2 h3 h4 <;> first
    | rfl
    | exact absurd h3 (by simp [h])

theorem listInfix_iff (needle : List Char) :
    ∀ hay, listInfix needle hay = true ↔ needle <:+: hay := by
  intro hay
  induction hay with
  | nil =>
    simp [listInfix, List.isEmpty_iff, List.infix_nil]
  | cons c cs ih =>
    simp only [listInfix, Bool.or_eq_true, ih, List.infix_cons_iff,
      List.isPrefixOf_iff_prefix]

/-! ## Claim theorems -/

/-- C1: the claimed render/re-parse round trip fails on the code. Rendering
the concrete record c1Original through the daily append template and
re-parsing the resulting document with get_daily_summaries_from_doc yields a
record whose workout, eating_feelings and short_term_goals have fallen back
to their sentinels, because the writer emits bullets with the character
U+2022 while the re-parser matches the three-character sequence
U+00E2 U+20AC U+00A2; only the date survives the round trip. -/
theorem daily_template_roundtrip_code_bug :
    google_docs.get_daily_summaries_from_doc c1DocText 7 =
      [⟨"2024-01-01", "Not specified", "Not specified", []⟩] ∧
    google_docs.get_daily_summaries_from_doc c1DocText 7 ≠ [c1Original] := by
  constructor
  · decide
  · decide

/-- C2 counterexample: claude_api._retry_with_backoff does not short-circuit
a non-retryable failure. For an operation that always fails with HTTP 400 (a
malformed-request class status), the wrapper still invokes the operation 3
times and sleeps twice, contradicting the claim that it re-raises after the
first attempt with zero sleeps and no further invocation. -/
theorem retry_nonretryable_counterexample :
    (claude_api._retry_with_backoff
        (fun _ => (Except.error (PyErr.http 400) : Except PyErr Unit))
        RETRY_DELAY RETRY_BACKOFF MAX_RETRIES).calls = 3 ∧
    (claude_api._retry_with_backoff
        (fun _ => (Except.error (PyErr.http 400) : Except PyErr Unit))
        RETRY_DELAY RETRY_BACKOFF MAX_RETRIES).sleeps = [1, 2] ∧
    ¬((claude_api._retry_with_backoff
        (fun _ => (Except.error (PyErr.http 400) : Except PyErr Unit))
        RETRY_DELAY RETRY_BACKOFF MAX_RETRIES).calls = 1 ∧
      (claude_api._retry_with_backoff
        (fun _ => (Except.error (PyErr.http 400) : Except PyErr Unit))
        RETRY_DELAY RETRY_BACKOFF MAX_RETRIES).sleeps = []) := by
  refine ⟨rfl, ?_, ?_⟩
  · show [RETRY_DELAY * RETRY_BACKOFF ^ 0, RETRY_DELAY * RETRY_BACKOFF ^ 1] = [1, 2]
    norm_num [RETRY_DELAY, RETRY_BACKOFF]
  · intro hcontra
    have : (3 : Nat) = 1 := hcontra.1
    omega

/-- C2 amended: only google_docs._retry_with_backoff classifies
retryability. An operation whose first attempt fails with an HttpError whose
status is outside the retryable set is re-raised by the google_docs wrapper
after one invocation with zero sleeps, while claude_api._retry_with_backoff
retries every failure and re-raises only the last one after MAX_RETRIES
invocations. -/
theorem retry_nonretryable_amended {α β : Type} (s : Nat)
    (hs : ¬ s ∈ google_docs.retryableStatuses)
    (op : Nat → Except PyErr α) (h0 : op 0 = .error (.http s))
    (opC : Nat → Except PyErr β) (es : Nat → PyErr)
    (hC : ∀ i, opC i = .error (es i)) :
    (google_docs._retry_with_backoff op RETRY_DELAY RETRY_BACKOFF MAX_RETRIES).result =
      .error (.http s) ∧
    (google_docs._retry_with_backoff op RETRY_DELAY RETRY_BACKOFF MAX_RETRIES).calls = 1 ∧
    (google_docs._retry_with_backoff op RETRY_DELAY RETRY_BACKOFF MAX_RETRIES).sleeps = [] ∧
    (claude_api._retry_with_backoff opC RETRY_DELAY RETRY_BACKOFF MAX_RETRIES).calls =
      MAX_RETRIES ∧
    (claude_api._retry_with_backoff opC RETRY_DELAY RETRY_BACKOFF MAX_RETRIES).result =
      .error (es (MAX_RETRIES - 1)) := by
  refine ⟨?_, ?_, ?_, ?_, ?_⟩
  · simp [google_docs._retry_with_backoff, google_docs.retryGo, h0, hs]
  · simp [google_docs._retry_with_backoff, google_docs.retryGo, h0, hs]
  · simp [google_docs._retry_with_backoff, google_docs.retryGo, h0, hs]
  · simp [claude_api._retry_with_backoff, claude_api.retryGo, hC, MAX_RETRIES]
  · simp [claude_api._retry_with_backoff, claude_api.retryGo, hC, MAX_RETRIES]

/-- C2 amended witness: concrete instantiation with a persistent HTTP 403
failure for the google_docs wrapper and a persistent generic failure for the
claude_api wrapper. -/
theorem retry_nonretryable_amended_witness :
    (google_docs._retry_with_backoff
        (fun _ => (Except.error (PyErr.http 403) : Except PyErr Unit))
        RETRY_DELAY RETRY_BACKOFF MAX_RETRIES).result = .error (.http 403) ∧
    (google_docs._retry_with_backoff
        (fun _ => (Except.error (PyErr.http 403) : Except PyErr Unit))
        RETRY_DELAY RETRY_BACKOFF MAX_RETRIES).calls = 1 ∧
    (google_docs._retry_with_backoff
        (fun _ => (Except.error (PyErr.http 403) : Except PyErr Unit))
        RETRY_DELAY RETRY_BACKOFF MAX_RETRIES).sleeps = [] ∧
    (claude_api._retry_with_backoff
        (fun _ => (Except.error PyErr.other : Except PyErr Unit))
        RETRY_DELAY RETRY_BACKOFF MAX_RETRIES).calls = MAX_RETRIES ∧
    (claude_api._retry_with_backoff
        (fun _ => (Except.error PyErr.other : Except PyErr Unit))
        RETRY_DELAY RETRY_BACKOFF MAX_RETRIES).result = .error PyErr.other :=
  retry_nonretryable_amended 403 (by decide)
    (fun _ => (Except.error (PyErr.http 403) : Except PyErr Unit)) rfl
    (fun _ => (Except.error PyErr.other : Except PyErr Unit)) (fun _ => PyErr.other)
    (fun _ => rfl)

/-- C3: get_daily_summary never uses its exception channel, and whenever
every produced oracle reply fails JSON parsing after fence-stripping (which
covers both a malformed first reply and pure retry exhaustion, attempts that
raise being covered vacuously), the result is exactly the fixed fallback
record. -/
theorem daily_summary_fallback_total (jsonLoads : String → Option JVal)
    (attempts : Nat → Except Unit String) :
    (∃ v, claude_api.get_daily_summary jsonLoads attempts = .ok v) ∧
    ((∀ i, i < MAX_RETRIES → ∀ t, attempts i = .ok t →
        jsonLoads (claude_api._clean_json_response (pyStrip t)) = none) →
      claude_api.get_daily_summary jsonLoads attempts = .ok claude_api.dailyFallback) := by
  constructor
  · cases h : (claude_api._retry_with_backoff (claude_api.makeDailyRequest jsonLoads attempts)
        RETRY_DELAY RETRY_BACKOFF MAX_RETRIES).result with
    | ok v => exact ⟨v, by simp [claude_api.get_daily_summary, h]⟩
    | error e => exact ⟨claude_api.dailyFallback, by simp [claude_api.get_daily_summary, h]⟩
  · intro hall
    cases h : (claude_api._retry_with_backoff (claude_api.makeDailyRequest jsonLoads attempts)
        RETRY_DELAY RETRY_BACKOFF MAX_RETRIES).result with
    | error e => simp [claude_api.get_daily_summary, h]
    | ok v =>
      have h2 : (claude_api.retryGo (claude_api.makeDailyRequest jsonLoads attempts)
          RETRY_DELAY RETRY_BACKOFF 0 (MAX_RETRIES - 1)).result = .ok v := h
      obtain ⟨k, hk0, hk2, hop⟩ := retryGo_ok _ _ _ _ _ _ h2
      have hklt : k < MAX_RETRIES := by
        have : MAX_RETRIES = 3 := rfl
        omega
      unfold claude_api.makeDailyRequest at hop
      cases hat : attempts k with
      | error e => rw [hat] at hop; dsimp only at hop; simp at hop
      | ok t =>
        rw [hat] at hop
        dsimp only at hop
        cases hjs : jsonLoads (claude_api._clean_json_response (pyStrip t)) with
        | some j =>
          rw [hall k hklt t hat] at hjs
          exact absurd hjs (by simp)
        | none =>
          rw [hjs] at hop
          simp only [Except.ok.injEq] at hop
          simp [claude_api.get_daily_summary, h, hop]

/-- C3 witness: a parse function that always fails and an oracle that always
replies with non-JSON text produce exactly the fallback record, without using
the exception channel. -/
theorem daily_summary_fallback_total_witness :
    (∃ v, claude_api.get_daily_summary (fun _ => none)
      (fun _ => .ok "no json here") = .ok v) ∧
    claude_api.get_daily_summary (fun _ => none) (fun _ => .ok "no json here") =
      .ok claude_api.dailyFallback :=
  ⟨(daily_summary_fallback_total (fun _ => none) (fun _ => .ok "no json here")).1,
   (daily_summary_fallback_total (fun _ => none) (fun _ => .ok "no json here")).2
     (fun _ _ _ _ => rfl)⟩

/-- C4: when every produced oracle reply fails JSON parsing (covering
malformed replies and retry exhaustion), get_weekly_recap returns exactly
the locally computed fallback, whose workout_count is the number of records
whose lower-cased workout is not in the excluded set and whose other three
fields are the fixed strings. -/
theorem weekly_recap_local_fallback (jsonLoads : String → Option JVal)
    (daily_summaries : List DailyRecord) (attempts : Nat → Except Unit String)
    (h : ∀ i, i < MAX_RETRIES → ∀ t, attempts i = .ok t →
      jsonLoads (claude_api._clean_json_response (pyStrip t)) = none) :
    claude_api.get_weekly_recap jsonLoads daily_summaries attempts =
      .ok (claude_api.weeklyFallback daily_summaries) ∧
    jGet (claude_api.weeklyFallback daily_summaries) "workout_count" =
      some (.num ((daily_summaries.filter
        (fun s => !(["not specified", "none", ""].contains (pyLower s.workout)))).length : Int)) ∧
    jGet (claude_api.weeklyFallback daily_summaries) "general_eating_feeling" =
      some (.str "Mixed feelings about eating this week") ∧
    jGet (claude_api.weeklyFallback daily_summaries) "slip_ups" =
      some (.str "Unable to analyze slip-ups") ∧
    jGet (claude_api.weeklyFallback daily_summaries) "suggested_reflection" =
      some (.str "Keep up the great work and stay consistent!") := by
  refine ⟨?_, rfl, rfl, rfl, rfl⟩
  cases hres : (claude_api._retry_with_backoff
      (claude_api.makeWeeklyRequest jsonLoads daily_summaries attempts)
      RETRY_DELAY RETRY_BACKOFF MAX_RETRIES).result with
  | error e => simp [claude_api.get_weekly_recap, hres]
  | ok v =>
    have h2 : (claude_api.retryGo (claude_api.makeWeeklyRequest jsonLoads daily_summaries attempts)
        RETRY_DELAY RETRY_BACKOFF 0 (MAX_RETRIES - 1)).result = .ok v := hres
    obtain ⟨k, hk0, hk2, hop⟩ := retryGo_ok _ _ _ _ _ _ h2
    have hklt : k < MAX_RETRIES := by
      have : MAX_RETRIES = 3 := rfl
      omega
    unfold claude_api.makeWeeklyRequest at hop
    cases hat : attempts k with
    | error e => rw [hat] at hop; dsimp only at hop; simp at hop
    | ok t =>
      rw [hat] at hop
      dsimp only at hop
      cases hjs : jsonLoads (claude_api._clean_json_response (pyStrip t)) with
      | some j =>
        rw [h k hklt t hat] at hjs
        exact absurd hjs (by simp)
      | none =>
        rw [hjs] at hop
        simp only [Except.ok.injEq] at hop
        simp [claude_api.get_weekly_recap, hres, hop]

/-- C4 witness: two concrete records, one meaningful workout; the local
fallback is returned and counts exactly one workout. -/
theorem weekly_recap_local_fallback_witness :
    claude_api.get_weekly_recap (fun _ => none)
        [⟨"2024-01-01", "Gym session", "Good", []⟩,
         ⟨"2024-01-02", "not specified", "Bad", []⟩]
        (fun _ => .ok "no json here") =
      .ok (claude_api.weeklyFallback
        [⟨"2024-01-01", "Gym session", "Good", []⟩,
         ⟨"2024-01-02", "not specified", "Bad", []⟩]) ∧
    jGet (claude_api.weeklyFallback
        [⟨"2024-01-01", "Gym session", "Good", []⟩,
         ⟨"2024-01-02", "not specified", "Bad", []⟩]) "workout_count" =
      some (.num (([(⟨"2024-01-01", "Gym session", "Good", []⟩ : DailyRecord),
         ⟨"2024-01-02", "not specified", "Bad", []⟩].filter
        (fun s => !(["not specified", "none", ""].contains (pyLower s.workout)))).length : Int)) :=
  ⟨(weekly_recap_local_fallback (fun _ => none) _ (fun _ => .ok "no json here")
      (fun _ _ _ _ => rfl)).1,
   (weekly_recap_local_fallback (fun _ => none) _ (fun _ => .ok "no json here")
      (fun _ _ _ _ => rfl)).2.1⟩

/-- C5 counterexample: get_daily_summary does not guarantee field presence.
With an oracle reply that is the valid JSON empty object (json.loads maps
the two-character object literal to the empty object), the returned record
is that empty object and carries no workout key at all. -/
theorem daily_field_omission_counterexample :
    claude_api.get_daily_summary
        (fun s => if s = "\x7b\x7d" then some (JVal.obj []) else none)
        (fun _ => .ok "\x7b\x7d") = .ok (JVal.obj []) ∧
    hasKey (JVal.obj []) "workout" = false :=
  ⟨rfl, rfl⟩

/-- C5 amended: get_daily_summary returns either the fixed fallback record
(which does carry all three fields) or the parsed oracle JSON verbatim,
which may omit fields; the re-parser half of the claim stands: records
reconstructed by get_daily_summaries_from_doc always have all fields
structurally, and in a document with no workout (resp. eating, goals)
bullet line every reconstructed record carries the sentinel (resp. the
empty goal list). -/
theorem daily_record_presence_amended (jsonLoads : String → Option JVal)
    (attempts : Nat → Except Unit String) (full_text : String) (days : Nat) :
    (claude_api.get_daily_summary jsonLoads attempts = .ok claude_api.dailyFallback ∨
      ∃ k t j, k < MAX_RETRIES ∧ attempts k = .ok t ∧
        jsonLoads (claude_api._clean_json_response (pyStrip t)) = some j ∧
        claude_api.get_daily_summary jsonLoads attempts = .ok j) ∧
    (hasKey claude_api.dailyFallback "workout" = true ∧
      hasKey claude_api.dailyFallback "eating_feelings" = true ∧
      hasKey claude_api.dailyFallback "short_term_goals" = true) ∧
    ((∀ l ∈ splitNl full_text, pyStartsWith (pyStrip l) google_docs.bWorkout = false) →
      ∀ r ∈ google_docs.get_daily_summaries_from_doc full_text days,
        r.workout = "Not specified") ∧
    ((∀ l ∈ splitNl full_text, pyStartsWith (pyStrip l) google_docs.bEating = false) →
      ∀ r ∈ google_docs.get_daily_summaries_from_doc full_text days,
        r.eating_feelings = "Not specified") ∧
    ((∀ l ∈ splitNl full_text, pyStartsWith (pyStrip l) google_docs.bGoals = false) →
      ∀ r ∈ google_docs.get_daily_summaries_from_doc full_text days,
        r.short_term_goals = []) := by
  refine ⟨?_, ⟨rfl, rfl, rfl⟩, ?_, ?_, ?_⟩
  · cases h : (claude_api._retry_with_backoff (claude_api.makeDailyRequest jsonLoads attempts)
        RETRY_DELAY RETRY_BACKOFF MAX_RETRIES).result with
    | error e => exact Or.inl (by simp [claude_api.get_daily_summary, h])
    | ok v =>
      have h2 : (claude_api.retryGo (claude_api.makeDailyRequest jsonLoads attempts)
          RETRY_DELAY RETRY_BACKOFF 0 (MAX_RETRIES - 1)).result = .ok v := h
      obtain ⟨k, hk0, hk2, hop⟩ := retryGo_ok _ _ _ _ _ _ h2
      have hklt : k < MAX_RETRIES := by
        have : MAX_RETRIES = 3 := rfl
        omega
      unfold claude_api.makeDailyRequest at hop
      cases hat : attempts k with
      | error e => rw [hat] at hop; dsimp only at hop; simp at hop
      | ok t =>
        rw [hat] at hop
        dsimp only at hop
        cases hjs : jsonLoads (claude_api._clean_json_response (pyStrip t)) with
        | some j =>
          rw [hjs] at hop
          simp only [Except.ok.injEq] at hop
          refine Or.inr ⟨k, t, j, hklt, hat, hjs, ?_⟩
          simp [claude_api.get_daily_summary, h, hop]
        | none =>
          rw [hjs] at hop
          simp only [Except.ok.injEq] at hop
          exact Or.inl (by simp [claude_api.get_daily_summary, h, hop])
  · intro hno r hr
    exact (scanLines_invariant (fun x => x.workout = "Not specified")
      (fun lc => pyStartsWith lc google_docs.bWorkout = false)
      (fun _ => rfl)
      (fun x lc hok hq => by
        show (google_docs.updateSummary x lc).workout = "Not specified"
        rw [updateSummary_workout_of_not x lc hok]; exact hq)
      (splitNl full_text) hno days).1 r hr
  · intro hno r hr
    exact (scanLines_invariant (fun x => x.eating_feelings = "Not specified")
      (fun lc => pyStartsWith lc google_docs.bEating = false)
      (fun _ => rfl)
      (fun x lc hok hq => by
        show (google_docs.updateSummary x lc).eating_feelings = "Not specified"
        rw [updateSummary_eating_of_not x lc hok]; exact hq)
      (splitNl full_text) hno days).1 r hr
  · intro hno r hr
    exact (scanLines_invariant (fun x => x.short_term_goals = [])
      (fun lc => pyStartsWith lc google_docs.bGoals = false)
      (fun _ => rfl)
      (fun x lc hok hq => by
        show (google_docs.updateSummary x lc).short_term_goals = []
        rw [updateSummary_goals_of_not x lc hok]; exact hq)
      (splitNl full_text) hno days).1 r hr

/-- C5 amended witness: with a parser that never succeeds, an oracle that
always raises, and a document with a heading but no bullet lines, the
fallback is chosen (left disjunct holds because the fallback case applies)
and the reconstructed record carries the sentinels. -/
theorem daily_record_presence_amended_witness :
    (claude_api.get_daily_summary (fun _ => none) (fun _ => Except.error ()) =
        .ok claude_api.dailyFallback ∨
      ∃ k t j, k < MAX_RETRIES ∧ (fun _ : Nat => Except.error ()) k = Except.ok t ∧
        (fun _ : String => (none : Option JVal)) (claude_api._clean_json_response (pyStrip t)) = some j ∧
        claude_api.get_daily_summary (fun _ => none) (fun _ => Except.error ()) = .ok j) ∧
    (hasKey claude_api.dailyFallback "workout" = true ∧
      hasKey claude_api.dailyFallback "eating_feelings" = true ∧
      hasKey claude_api.dailyFallback "short_term_goals" = true) ∧
    (∀ r ∈ google_docs.get_daily_summaries_from_doc "Daily Check-in: 2024-04-04\n---" 2,
      r.workout = "Not specified") ∧
    (∀ r ∈ google_docs.get_daily_summaries_from_doc "Daily Check-in: 2024-04-04\n---" 2,
      r.eating_feelings = "Not specified") ∧
    (∀ r ∈ google_docs.get_daily_summaries_from_doc "Daily Check-in: 2024-04-04\n---" 2,
      r.short_term_goals = []) :=
  ⟨(daily_record_presence_amended (fun _ => none) (fun _ => Except.error ())
      "Daily Check-in: 2024-04-04\n---" 2).1,
   (daily_record_presence_amended (fun _ => none) (fun _ => Except.error ())
      "Daily Check-in: 2024-04-04\n---" 2).2.1,
   (daily_record_presence_amended (fun _ => none) (fun _ => Except.error ())
      "Daily Check-in: 2024-04-04\n---" 2).2.2.1 (by decide),
   (daily_record_presence_amended (fun _ => none) (fun _ => Except.error ())
      "Daily Check-in: 2024-04-04\n---" 2).2.2.2.1 (by decide),
   (daily_record_presence_amended (fun _ => none) (fun _ => Except.error ())
      "Daily Check-in: 2024-04-04\n---" 2).2.2.2.2 (by decide)⟩

/-- C6: get_stretch_entry (modelled from the spec, since it is missing from
src/google_docs.py) signals absence with the distinguished none value when
no entry has the requested date, never erroring and never fabricating a
default record, and otherwise returns the first match in head-to-tail scan
order. -/
theorem stretch_entry_absent_signal (entries : List StretchEntry) (date_key : String) :
    ((∀ e ∈ entries, e.date ≠ date_key) →
      google_docs.get_stretch_entry entries date_key = none) ∧
    ∀ pre e post, entries = pre ++ e :: post → e.date = date_key →
      (∀ x ∈ pre, x.date ≠ date_key) →
      google_docs.get_stretch_entry entries date_key = some e := by
  constructor
  · intro h
    unfold google_docs.get_stretch_entry
    rw [List.find?_eq_none]
    intro x hx
    simp [h x hx]
  · intro pre e post heq he hpre
    subst heq
    unfold google_docs.get_stretch_entry
    induction pre with
    | nil =>
      rw [List.nil_append, List.find?_cons_of_pos]
      simp [he]
    | cons a pre ih =>
      have ha : (a.date == date_key) = false := by
        simp [hpre a (List.mem_cons_self a pre)]
      rw [List.cons_append]
      simp only [List.find?_cons, ha, cond_false]
      exact ih (fun x hx => hpre x (List.mem_cons_of_mem a hx))

/-- C6 witness: a document with no entry for 2024-01-01 yields none, and
with two entries for that date the head-most (most recent) one is
returned. -/
theorem stretch_entry_absent_signal_witness :
    google_docs.get_stretch_entry [⟨"2024-01-02", true, "yes"⟩] "2024-01-01" = none ∧
    google_docs.get_stretch_entry
      [⟨"2024-01-02", true, "yes"⟩, ⟨"2024-01-01", false, "no"⟩, ⟨"2024-01-01", true, "yes"⟩]
      "2024-01-01" = some ⟨"2024-01-01", false, "no"⟩ :=
  ⟨(stretch_entry_absent_signal [⟨"2024-01-02", true, "yes"⟩] "2024-01-01").1 (by decide),
   (stretch_entry_absent_signal
      [⟨"2024-01-02", true, "yes"⟩, ⟨"2024-01-01", false, "no"⟩, ⟨"2024-01-01", true, "yes"⟩]
      "2024-01-01").2
     [⟨"2024-01-02", true, "yes"⟩] ⟨"2024-01-01", false, "no"⟩ [⟨"2024-01-01", true, "yes"⟩]
     rfl rfl (by decide)⟩

/-- C7: for an operation that fails twice and then succeeds under
claude_api._retry_with_backoff with 3 attempts, the success value is
returned after exactly 3 invocations, exactly the two sleeps
base times factor to the zero-based attempt index are performed, the second
sleep strictly exceeds the first whenever the factor exceeds one, and an
operation failing on all attempts has its last failure re-raised. -/
theorem retry_backoff_schedule {α : Type} (op : Nat → Except PyErr α) (v : α)
    (e0 e1 : PyErr) (base factor : ℚ)
    (h0 : op 0 = .error e0) (h1 : op 1 = .error e1) (h2 : op 2 = .ok v)
    (hb : 0 < base) (hf : 1 < factor) :
    (claude_api._retry_with_backoff op base factor 3).result = .ok v ∧
    (claude_api._retry_with_backoff op base factor 3).calls = 3 ∧
    (claude_api._retry_with_backoff op base factor 3).sleeps =
      [base * factor ^ 0, base * factor ^ 1] ∧
    base * factor ^ 0 < base * factor ^ 1 ∧
    ∀ (g : Nat → PyErr),
      (claude_api._retry_with_backoff (fun i => (Except.error (g i) : Except PyErr α))
        base factor 3).result = .error (g 2) := by
  refine ⟨?_, ?_, ?_, ?_, ?_⟩
  · simp [claude_api._retry_with_backoff, claude_api.retryGo, h0, h1, h2]
  · simp [claude_api._retry_with_backoff, claude_api.retryGo, h0, h1, h2]
  · simp [claude_api._retry_with_backoff, claude_api.retryGo, h0, h1, h2]
  · have : base * 1 < base * factor := by
      exact (mul_lt_mul_left hb).2 hf
    simpa using this
  · intro g
    simp [claude_api._retry_with_backoff, claude_api.retryGo]

/-- C7 witness: concrete operation failing twice then returning 0, with
base 1 and factor 2. -/
theorem retry_backoff_schedule_witness :
    (claude_api._retry_with_backoff
        (fun i => if i < 2 then Except.error PyErr.other else Except.ok (0 : Nat))
        1 2 3).result = .ok 0 ∧
    (claude_api._retry_with_backoff
        (fun i => if i < 2 then Except.error PyErr.other else Except.ok (0 : Nat))
        1 2 3).calls = 3 ∧
    (claude_api._retry_with_backoff
        (fun i => if i < 2 then Except.error PyErr.other else Except.ok (0 : Nat))
        1 2 3).sleeps = [1 * 2 ^ 0, 1 * 2 ^ 1] ∧
    (1 : ℚ) * 2 ^ 0 < 1 * 2 ^ 1 ∧
    ∀ (g : Nat → PyErr),
      (claude_api._retry_with_backoff (fun i => (Except.error (g i) : Except PyErr Nat))
        1 2 3).result = .error (g 2) :=
  retry_backoff_schedule
    (fun i => if i < 2 then Except.error PyErr.other else Except.ok (0 : Nat))
    0 PyErr.other PyErr.other 1 2 rfl rfl rfl (by norm_num) (by norm_num)

/-- C8: the daily re-parser returns at most N records for limit N, and the
result for limit N is a prefix of the result for any larger limit, so
records come back in document order (newest first) independent of how much
of the document lies beyond the limit. -/
theorem daily_parse_limit_and_order (full_text : String) (n : Nat) :
    (google_docs.get_daily_summaries_from_doc full_text n).length ≤ n ∧
    ∀ m, n ≤ m →
      google_docs.get_daily_summaries_from_doc full_text n <+:
        google_docs.get_daily_summaries_from_doc full_text m := by
  refine ⟨(scanLines_length (splitNl full_text)).1 n, ?_⟩
  intro m hnm
  exact (scanLines_mono (splitNl full_text)).1 n m hnm

/-- C8 witness: a two-entry document read with limit 1 yields at most one
record, a prefix of the limit-2 read. -/
theorem daily_parse_limit_and_order_witness :
    (google_docs.get_daily_summaries_from_doc
      "Daily Check-in: 2024-03-03\n---\nDaily Check-in: 2024-03-02\n---\n" 1).length ≤ 1 ∧
    google_docs.get_daily_summaries_from_doc
      "Daily Check-in: 2024-03-03\n---\nDaily Check-in: 2024-03-02\n---\n" 1 <+:
      google_docs.get_daily_summaries_from_doc
        "Daily Check-in: 2024-03-03\n---\nDaily Check-in: 2024-03-02\n---\n" 2 :=
  ⟨(daily_parse_limit_and_order
      "Daily Check-in: 2024-03-03\n---\nDaily Check-in: 2024-03-02\n---\n" 1).1,
   (daily_parse_limit_and_order
      "Daily Check-in: 2024-03-03\n---\nDaily Check-in: 2024-03-02\n---\n" 1).2 2
     (by norm_num)⟩

/-- C9: process_stretch_response records stretched exactly when the
lower-cased reply contains yes, yeah or yep as a substring; in particular
the negative reply containing yesterday inside is recorded as stretched. -/
theorem stretch_yes_substring :
    (∀ (p : Option String) (nd t : String),
      (bot.process_stretch_response p nd t).stretched = true ↔
        ("yes".data <:+: (pyLower t).data ∨ "yeah".data <:+: (pyLower t).data ∨
          "yep".data <:+: (pyLower t).data)) ∧
    (bot.process_stretch_response none "2024-01-01"
      "no, but I stretched yesterday").stretched = true := by
  constructor
  · intro p nd t
    show bot.stretchedFromText t = true ↔ _
    unfold bot.stretchedFromText pyContains
    simp [listInfix_iff, or_assoc]
  · decide

/-- C10: every record produced by the daily re-parser has a goals list with
no empty or whitespace-only entries (each goal is nonempty and a fixed
point of stripping), its date, workout and eating_feelings values are
whitespace-stripped, and a goals bullet whose text is exactly the sentinel
leaves the goals field (initially empty) unchanged. -/
theorem daily_parse_goal_invariants (full_text : String) (days : Nat)
    (r : DailyRecord)
    (hr : r ∈ google_docs.get_daily_summaries_from_doc full_text days) :
    (∀ g ∈ r.short_term_goals, g ≠ "" ∧ pyStrip g = g) ∧
    pyStrip r.date = r.date ∧ pyStrip r.workout = r.workout ∧
    pyStrip r.eating_feelings = r.eating_feelings ∧
    ∀ rec : DailyRecord,
      (google_docs.updateSummary rec "â€¢ Short-term Goals: Not specified").short_term_goals =
        rec.short_term_goals := by
  have hg : goodRec r := by
    have := scanLines_invariant goodRec (fun _ => True) goodRec_init
      (fun x lc _ hq => goodRec_update x lc hq) (splitNl full_text)
      (fun _ _ => trivial) days
    exact this.1 r hr
  exact ⟨hg.2.2.2, hg.1, hg.2.1, hg.2.2.1, fun rec => rfl⟩

/-- C10 witness: a concrete document whose goals bullet contains an empty
comma field and padding parses to the goals run and swim, with stripped
values and sentinel defaults. -/
theorem daily_parse_goal_invariants_witness :
    (∀ g ∈ (["run", "swim"] : List String), g ≠ "" ∧ pyStrip g = g) ∧
    pyStrip "2024-02-02" = "2024-02-02" ∧
    pyStrip "Not specified" = "Not specified" ∧
    pyStrip "Not specified" = "Not specified" ∧
    ∀ rec : DailyRecord,
      (google_docs.updateSummary rec "â€¢ Short-term Goals: Not specified").short_term_goals =
        rec.short_term_goals :=
  daily_parse_goal_invariants
    "Daily Check-in: 2024-02-02\nâ€¢ Short-term Goals: run, , swim \n---\n" 3
    ⟨"2024-02-02", "Not specified", "Not specified", ["run", "swim"]⟩
    (by decide)
